import Mathlib

/-!
Shallow embedding of the authentication routes of the Runaway backend
(`src/routes/users.py`): login, refresh, register and whoami handlers over a
document store, together with models of the external collaborators the
handlers consume (token codec, password hasher, configuration, response
model), which live outside the embedded source and are modelled from the
specification where so marked.

Conventions of the embedding:
* the document store (`db.users`, `db.statistics`) is a pair of lists; Mongo's
  `find_one` is `List.find?` and `update_one` updates the first matching
  document; `insert_one` appends;
* timestamps are natural numbers; the store state carries a clock that
  advances across mutating requests, so tokens minted by distinct sequential
  logins carry distinct expiry stamps;
* `HTTPException` is a status code plus detail string; a handler returns
  `Except HTTPException result` together with the resulting store state.
-/

/-- Modelled from the spec: the Token Codec collaborator (`utils.py`, not part
of the embedded source) signs bearer tokens carrying an optional subject claim
and an expiry stamp.  A token string is either garbage that fails
verification, or a signed token whose payload holds the subject claim (if any)
and the expiry stamp. -/
inductive Jwt where
  | garbage : Nat → Jwt
  | signed : Option String → Nat → Jwt
deriving DecidableEq, Repr

/-- A decoded token payload: the subject claim, if present, and the expiry
stamp. -/
structure Payload where
  sub : Option String
  exp : Nat
deriving DecidableEq, Repr

/-- Modelled from the spec: `decode_token` from `utils.py` verifies a token
string and returns its payload, or nothing when verification fails. -/
def decode_token : Jwt → Option Payload
  | .garbage _ => none
  | .signed s e => some ⟨s, e⟩

/-- Modelled from the spec: the configuration consumed by the service — the
access-token expiry duration in minutes (`settings.py`, not part of the
embedded source). -/
structure Settings where
  ACCESS_TOKEN_EXPIRE_MINUTES : Nat
deriving Repr

/-- Modelled from the spec: the process-wide settings object. -/
def settings : Settings := { ACCESS_TOKEN_EXPIRE_MINUTES := 30 }

/-- Modelled from the spec: the Token Codec's own default durability for
refresh tokens (minutes); the service itself enforces no explicit expiry. -/
def REFRESH_TOKEN_DEFAULT_EXPIRE : Nat := 10080

/-- Modelled from the spec: `create_access_token` from `utils.py` mints a
signed token bound to the given subject, expiring `expires_delta` after the
current instant. -/
def create_access_token (sub : String) (expires_delta : Nat) (now : Nat) : Jwt :=
  .signed (some sub) (now + expires_delta)

/-- Modelled from the spec: `create_refresh_token` from `utils.py` mints a
signed token bound to the given subject with the codec's default expiry. -/
def create_refresh_token (sub : String) (now : Nat) : Jwt :=
  .signed (some sub) (now + REFRESH_TOKEN_DEFAULT_EXPIRE)

/-- Modelled from the spec: `get_password_hash` from `utils.py`, the one-way
hash of a plaintext credential.  Modelled as an injective tagging so that
verification is exact and a stored hash is never the plaintext itself. -/
def get_password_hash (password : String) : String :=
  "hashed:" ++ password

/-- Modelled from the spec: `verify_password` from `utils.py` checks a
plaintext against a stored hash. -/
def verify_password (plain : String) (hashed : String) : Bool :=
  hashed == get_password_hash plain

/-- A document of the `users` collection, per the data model: store-assigned
identifier, unique username, password hash (the `password` field holds the
hash, as in the source), creation timestamp, and the most recently issued
refresh token, if any. -/
structure UserRecord where
  _id : Nat
  username : String
  password : String
  created_at : Nat
  refresh_token : Option Jwt
deriving DecidableEq, Repr

/-- The zeroed running-total structure of a fresh statistics document
(`total_distance` in `register_user`). -/
structure TotalDistance where
  year_start : Nat
  distance : Nat
  duration : Nat
  count : Nat
  average_pace : Nat
deriving DecidableEq, Repr

/-- A document of the `statistics` collection as initialized by
`register_user`: the owning user's identifier, the three aggregation buckets
and the running total. -/
structure StatisticsRecord where
  user_id : Nat
  weekly : List Nat
  monthly : List Nat
  yearly : List Nat
  total_distance : TotalDistance
deriving DecidableEq, Repr

/-- The persistent store: the `users` and `statistics` collections, the next
store-assigned identifier, and the current instant (used for `created_at`,
period starts and token expiry stamps; it advances across mutating
requests). -/
structure DB where
  users : List UserRecord
  statistics : List StatisticsRecord
  next_id : Nat
  clock : Nat
deriving DecidableEq, Repr

/-- Mongo `update_one`: rewrite the first document matching the filter, leave
every other document untouched. -/
def update_first (p : UserRecord → Bool) (f : UserRecord → UserRecord) :
    List UserRecord → List UserRecord
  | [] => []
  | x :: xs => if p x then f x :: xs else x :: update_first p f xs

/-- An HTTP error raised by a handler: status code and detail message. -/
structure HTTPException where
  status_code : Nat
  detail : String
deriving DecidableEq, Repr

/-- The login request body (`UserLogin` in the source). -/
structure UserLogin where
  username : String
  password : String
deriving DecidableEq, Repr

/-- The registration request body (`UserCreate` in the source). -/
structure UserCreate where
  username : String
  password : String
deriving DecidableEq, Repr

/-- The token response model (`Token` in the source): both tokens, the
token-type label, and the optional user identifier (absent by default). -/
structure Token where
  access_token : Jwt
  refresh_token : Jwt
  token_type : String
  user_id : Option Nat
deriving DecidableEq, Repr

/-- The registration response: the new user's identifier and username. -/
structure RegisterResponse where
  id : Nat
  username : String
deriving DecidableEq, Repr

/-- Modelled from the spec: the `User` response model (`models.py`, not part
of the embedded source) exposes only the public profile fields — identifier,
username, creation time — never the password hash or the refresh token. -/
structure UserPublic where
  id : Nat
  username : String
  created_at : Nat
deriving DecidableEq, Repr

/-- Modelled from the spec: projection of a stored user document onto the
`User` response model's public fields, as the framework applies it to the
handler's return value. -/
def userPublicOf (u : UserRecord) : UserPublic :=
  ⟨u._id, u.username, u.created_at⟩

/-- `POST /login` (`login_for_access_token` in the source): authenticate the
credentials, mint the access and refresh tokens, persist the refresh token
onto the user document, and return both tokens with the label `bearer` and
the user's identifier. -/
def login_for_access_token (user_login : UserLogin) (db : DB) :
    Except HTTPException Token × DB :=
  match db.users.find? (fun u => u.username == user_login.username) with
  | none => (.error ⟨401, "Incorrect username or password"⟩, db)
  | some user =>
    if verify_password user_login.password user.password then
      let access_token :=
        create_access_token user.username settings.ACCESS_TOKEN_EXPIRE_MINUTES db.clock
      let refresh_token := create_refresh_token user.username db.clock
      let users' := update_first (fun u => u._id == user._id)
        (fun u => { u with refresh_token := some refresh_token }) db.users
      (.ok { access_token := access_token, refresh_token := refresh_token,
             token_type := "bearer", user_id := some user._id },
       { db with users := users', clock := db.clock + 1 })
    else
      (.error ⟨401, "Incorrect username or password"⟩, db)

/-- `POST /refresh` (`refresh_access_token` in the source): decode the
presented refresh token, require a subject claim, look the user up by it,
require the stored refresh token to equal the presented one exactly, and on
success mint a fresh access token and echo the same refresh token back. -/
def refresh_access_token (request_token : Jwt) (db : DB) :
    Except HTTPException Token × DB :=
  match decode_token request_token with
  | none => (.error ⟨401, "Invalid refresh token"⟩, db)
  | some payload =>
    match payload.sub with
    | none => (.error ⟨401, "Invalid refresh token"⟩, db)
    | some username =>
      match db.users.find? (fun u => u.username == username) with
      | none => (.error ⟨401, "Invalid refresh token"⟩, db)
      | some user =>
        if user.refresh_token = some request_token then
          (.ok { access_token :=
                   create_access_token user.username
                     settings.ACCESS_TOKEN_EXPIRE_MINUTES db.clock,
                 refresh_token := request_token,
                 token_type := "bearer", user_id := none },
           db)
        else
          (.error ⟨401, "Invalid refresh token"⟩, db)

/-- `POST /register` (`register_user` in the source): reject a duplicate
username, otherwise insert the user document with the hashed password and the
current creation time, insert the zero-initialized statistics document, and
return the new identifier and username. -/
def register_user (user : UserCreate) (db : DB) :
    Except HTTPException RegisterResponse × DB :=
  match db.users.find? (fun u => u.username == user.username) with
  | some _ => (.error ⟨400, "Username already registered"⟩, db)
  | none =>
    let hashed_password := get_password_hash user.password
    let user_data : UserRecord :=
      { _id := db.next_id, username := user.username, password := hashed_password,
        created_at := db.clock, refresh_token := none }
    let statistics_data : StatisticsRecord :=
      { user_id := db.next_id, weekly := [], monthly := [], yearly := [],
        total_distance := { year_start := db.clock, distance := 0, duration := 0,
                            count := 0, average_pace := 0 } }
    (.ok { id := db.next_id, username := user.username },
     { db with users := db.users ++ [user_data],
               statistics := db.statistics ++ [statistics_data],
               next_id := db.next_id + 1,
               clock := db.clock + 1 })

/-- `GET /me` (`read_users_me` in the source): the framework decodes the
bearer token upstream into `token`; require a payload with a subject claim,
look the user up by it, and return the user through the `User` response
model.  The handler never mutates the store. -/
def read_users_me (token : Option Payload) (db : DB) :
    Except HTTPException UserPublic :=
  match token with
  | none => .error ⟨401, "Invalid token"⟩
  | some t =>
    match t.sub with
    | none => .error ⟨401, "Invalid token"⟩
    | some username =>
      match db.users.find? (fun u => u.username == username) with
      | none => .error ⟨401, "Invalid token"⟩
      | some user => .ok (userPublicOf user)

/-! ### Helper lemmas -/

theorem get_password_hash_ne (p : String) : get_password_hash p ≠ p := by
  intro h
  have hl := congrArg String.length h
  rw [get_password_hash, String.length_append] at hl
  have h7 : ("hashed:" : String).length = 7 := rfl
  rw [h7] at hl
  omega

theorem map_update_first {α : Type} (p : UserRecord → Bool)
    (f : UserRecord → UserRecord) (g : UserRecord → α)
    (hg : ∀ x, g (f x) = g x) :
    ∀ l : List UserRecord, (update_first p f l).map g = l.map g := by
  intro l
  induction l with
  | nil => rfl
  | cons x xs ih =>
    rw [update_first]
    by_cases hx : p x = true
    · rw [if_pos hx, List.map_cons, List.map_cons, hg]
    · rw [if_neg hx, List.map_cons, List.map_cons, ih]

theorem find?_username_update_first (un : String) (u : UserRecord)
    (f : UserRecord → UserRecord) (hfu : (f u).username = u.username) :
    ∀ l : List UserRecord,
      l.find? (fun x => x.username == un) = some u →
      (l.map (fun x => x._id)).Nodup →
      (update_first (fun x => x._id == u._id) f l).find?
        (fun x => x.username == un) = some (f u) := by
  intro l
  induction l with
  | nil => intro hfind; simp at hfind
  | cons x xs ih =>
    intro hfind hid
    rw [List.map_cons, List.nodup_cons] at hid
    by_cases hx : (x.username == un) = true
    · rw [List.find?_cons, hx] at hfind
      have hxu : x = u := by injection hfind
      subst hxu
      simp only [update_first, if_pos (show (x._id == x._id) = true by simp)]
      have hfx : ((f x).username == un) = true := by rw [hfu]; exact hx
      rw [List.find?_cons, hfx]
    · rw [List.find?_cons, Bool.eq_false_iff.mpr hx] at hfind
      have hmem : u ∈ xs := List.mem_of_find?_eq_some hfind
      have hxu : x._id ≠ u._id := by
        intro hcontra
        exact hid.1 (hcontra ▸ List.mem_map_of_mem (fun x => x._id) hmem)
      simp only [update_first, if_neg (show ¬((x._id == u._id) = true) by simp [hxu])]
      rw [List.find?_cons, Bool.eq_false_iff.mpr hx]
      exact ih hfind hid.2

/-! ### Example store states used by witnesses -/

/-- The empty store. -/
def db0 : DB := { users := [], statistics := [], next_id := 0, clock := 0 }

/-- A registered user with no refresh token yet. -/
def aliceRec : UserRecord :=
  { _id := 0, username := "alice", password := get_password_hash "p",
    created_at := 0, refresh_token := none }

/-- A store holding exactly the user `aliceRec`. -/
def dbAlice : DB := { users := [aliceRec], statistics := [], next_id := 1, clock := 1 }

/-- A current refresh token for `bobRec`. -/
def bobTok : Jwt := create_refresh_token "bob" 3

/-- A registered user holding a current refresh token. -/
def bobRec : UserRecord :=
  { _id := 1, username := "bob", password := get_password_hash "q",
    created_at := 2, refresh_token := some bobTok }

/-- A store holding exactly the user `bobRec`. -/
def dbBob : DB := { users := [bobRec], statistics := [], next_id := 2, clock := 4 }

/-- A structurally valid token for `bobRec` that differs from the one the
store holds (a superseded token). -/
def bobStale : Jwt := .signed (some "bob") 7

/-! ### Claim theorems -/

/-- C10: for every refresh request, whether it succeeds or fails, the refresh
operation performs no mutation of the store: the resulting store state is
exactly the one before the call. -/
theorem refresh_no_mutation (request_token : Jwt) (db : DB) :
    (refresh_access_token request_token db).2 = db := by
  unfold refresh_access_token
  split
  · rfl
  · split
    · rfl
    · split
      · rfl
      · split <;> rfl

/-- C5: a login whose username matches no user record, or whose password does
not verify against the stored hash, fails with the same generic 401
"Incorrect username or password" error in both cases, and leaves the store
unchanged. -/
theorem login_rejects_bad_credentials (user_login : UserLogin) (db : DB)
    (h : ∀ u, db.users.find? (fun x => x.username == user_login.username) = some u →
      verify_password user_login.password u.password = false) :
    login_for_access_token user_login db =
      (.error ⟨401, "Incorrect username or password"⟩, db) := by
  unfold login_for_access_token
  cases hf : db.users.find? (fun x => x.username == user_login.username) with
  | none => rfl
  | some u => simp [h u hf]

/-- Witness for C5 at a concrete input: login for an unknown username on the
empty store fails with the generic 401 error. -/
theorem login_rejects_bad_credentials_witness :
    login_for_access_token ⟨"mallory", "pw"⟩ db0 =
      (.error ⟨401, "Incorrect username or password"⟩, db0) :=
  login_rejects_bad_credentials ⟨"mallory", "pw"⟩ db0
    (fun u h => by simp [db0] at h)

/-- C6: registering a username that already has a user record fails with 400
"Username already registered" and performs no mutation: the store (users and
statistics alike) is returned exactly as it was. -/
theorem register_duplicate_rejected (user : UserCreate) (db : DB)
    (u0 : UserRecord)
    (h : db.users.find? (fun x => x.username == user.username) = some u0) :
    register_user user db = (.error ⟨400, "Username already registered"⟩, db) := by
  unfold register_user
  rw [h]

/-- Witness for C6 at a concrete input: re-registering "alice" on a store that
already holds her record fails with 400 and leaves the store unchanged. -/
theorem register_duplicate_rejected_witness :
    register_user ⟨"alice", "other"⟩ dbAlice =
      (.error ⟨400, "Username already registered"⟩, dbAlice) :=
  register_duplicate_rejected ⟨"alice", "other"⟩ dbAlice aliceRec rfl

/-- C7: registering a fresh username inserts exactly one user record — whose
stored password field is the one-way hash of the plaintext and not the
plaintext itself, and whose creation time is the current instant — inserts
exactly one statistics record with empty aggregation buckets and a zeroed
running total stamped with the current period start, and returns the new
identifier and username. -/
theorem register_fresh_creates_user_and_statistics (user : UserCreate) (db : DB)
    (h : db.users.find? (fun x => x.username == user.username) = none) :
    ∃ (rec : UserRecord) (stat : StatisticsRecord),
      register_user user db =
        (.ok { id := rec._id, username := user.username },
         { db with users := db.users ++ [rec],
                   statistics := db.statistics ++ [stat],
                   next_id := db.next_id + 1, clock := db.clock + 1 }) ∧
      rec.username = user.username ∧
      rec.password = get_password_hash user.password ∧
      rec.password ≠ user.password ∧
      rec.created_at = db.clock ∧
      rec.refresh_token = none ∧
      stat.user_id = rec._id ∧
      stat.weekly = [] ∧ stat.monthly = [] ∧ stat.yearly = [] ∧
      stat.total_distance = { year_start := db.clock, distance := 0,
                              duration := 0, count := 0, average_pace := 0 } := by
  refine ⟨{ _id := db.next_id, username := user.username,
            password := get_password_hash user.password,
            created_at := db.clock, refresh_token := none },
          { user_id := db.next_id, weekly := [], monthly := [], yearly := [],
            total_distance := { year_start := db.clock, distance := 0,
                                duration := 0, count := 0, average_pace := 0 } },
          ?_, rfl, rfl, get_password_hash_ne user.password, rfl, rfl, rfl,
          rfl, rfl, rfl, rfl⟩
  unfold register_user
  rw [h]

/-- Witness for C7 at a concrete input: registering "alice" on the empty
store. -/
theorem register_fresh_creates_user_and_statistics_witness :
    ∃ (rec : UserRecord) (stat : StatisticsRecord),
      register_user ⟨"alice", "p"⟩ db0 =
        (.ok { id := rec._id, username := "alice" },
         { db0 with users := db0.users ++ [rec],
                    statistics := db0.statistics ++ [stat],
                    next_id := db0.next_id + 1, clock := db0.clock + 1 }) ∧
      rec.username = "alice" ∧
      rec.password = get_password_hash "p" ∧
      rec.password ≠ "p" ∧
      rec.created_at = db0.clock ∧
      rec.refresh_token = none ∧
      stat.user_id = rec._id ∧
      stat.weekly = [] ∧ stat.monthly = [] ∧ stat.yearly = [] ∧
      stat.total_distance = { year_start := db0.clock, distance := 0,
                              duration := 0, count := 0, average_pace := 0 } :=
  register_fresh_creates_user_and_statistics ⟨"alice", "p"⟩ db0 rfl

/-- C9: every whoami failure mode — absent/undecodable token (no payload),
payload without a subject claim, or no user record for the subject — fails
with the same 401 "Invalid token" error. -/
theorem whoami_failures_uniform (db : DB) :
    read_users_me none db = .error ⟨401, "Invalid token"⟩ ∧
    (∀ t : Payload, t.sub = none →
      read_users_me (some t) db = .error ⟨401, "Invalid token"⟩) ∧
    (∀ (t : Payload) (un : String), t.sub = some un →
      db.users.find? (fun x => x.username == un) = none →
      read_users_me (some t) db = .error ⟨401, "Invalid token"⟩) := by
  refine ⟨rfl, ?_, ?_⟩
  · intro t hsub
    unfold read_users_me
    simp [hsub]
  · intro t un hsub hfind
    unfold read_users_me
    simp [hsub, hfind]

/-- Witness for C9 at a concrete input: a decodable token whose subject names
no user on the empty store fails with 401 "Invalid token". -/
theorem whoami_failures_uniform_witness :
    read_users_me (some ⟨some "ghost", 9⟩) db0 = .error ⟨401, "Invalid token"⟩ :=
  (whoami_failures_uniform db0).2.2 ⟨some "ghost", 9⟩ "ghost" rfl rfl

/-- C2: every successful whoami call returns exactly the public projection of
the stored user record — identifier, username, creation time — and therefore
never the password hash or the refresh token. -/
theorem whoami_success_public_fields_only (token : Option Payload) (db : DB)
    (prof : UserPublic) (h : read_users_me token db = .ok prof) :
    ∃ (t : Payload) (un : String) (u : UserRecord),
      token = some t ∧ t.sub = some un ∧
      db.users.find? (fun x => x.username == un) = some u ∧
      prof = { id := u._id, username := u.username, created_at := u.created_at } := by
  cases token with
  | none => simp [read_users_me] at h
  | some t =>
    cases hsub : t.sub with
    | none => simp [read_users_me, hsub] at h
    | some un =>
      cases hfind : db.users.find? (fun x => x.username == un) with
      | none => simp [read_users_me, hsub, hfind] at h
      | some u =>
        simp only [read_users_me, hsub, hfind] at h
        refine ⟨t, un, u, rfl, hsub, hfind, ?_⟩
        injection h with h
        exact h.symm

/-- Witness for C2 at a concrete input: whoami with a valid token for "bob"
returns exactly his public fields. -/
theorem whoami_success_public_fields_only_witness :
    ∃ (t : Payload) (un : String) (u : UserRecord),
      (some (⟨some "bob", 9⟩ : Payload)) = some t ∧ t.sub = some un ∧
      dbBob.users.find? (fun x => x.username == un) = some u ∧
      ({ id := 1, username := "bob", created_at := 2 } : UserPublic) =
        { id := u._id, username := u.username, created_at := u.created_at } :=
  whoami_success_public_fields_only (some ⟨some "bob", 9⟩) dbBob
    { id := 1, username := "bob", created_at := 2 } rfl

/-- C8: a refresh request that passes decoding, subject extraction and the
stored-token equality check returns a fresh access token with the configured
expiry whose subject decodes to the user's username, together with the very
refresh token presented, unchanged, and no token rotation happens (the store
is returned as it was). -/
theorem refresh_success_not_rotated (request_token : Jwt) (db : DB)
    (payload : Payload) (un : String) (u : UserRecord)
    (hdec : decode_token request_token = some payload)
    (hsub : payload.sub = some un)
    (hfind : db.users.find? (fun x => x.username == un) = some u)
    (htok : u.refresh_token = some request_token) :
    refresh_access_token request_token db =
      (.ok { access_token :=
               create_access_token u.username
                 settings.ACCESS_TOKEN_EXPIRE_MINUTES db.clock,
             refresh_token := request_token,
             token_type := "bearer", user_id := none },
       db) ∧
    (decode_token (create_access_token u.username
        settings.ACCESS_TOKEN_EXPIRE_MINUTES db.clock)).bind Payload.sub =
      some u.username := by
  constructor
  · unfold refresh_access_token
    simp [hdec, hsub, hfind, htok]
  · rfl

/-- Witness for C8 at a concrete input: refreshing with the token the store
currently holds for "bob" succeeds and echoes the same token back. -/
theorem refresh_success_not_rotated_witness :
    refresh_access_token bobTok dbBob =
      (.ok { access_token :=
               create_access_token "bob" settings.ACCESS_TOKEN_EXPIRE_MINUTES 4,
             refresh_token := bobTok,
             token_type := "bearer", user_id := none },
       dbBob) ∧
    (decode_token (create_access_token "bob"
        settings.ACCESS_TOKEN_EXPIRE_MINUTES 4)).bind Payload.sub = some "bob" :=
  refresh_success_not_rotated bobTok dbBob ⟨some "bob", 3 + REFRESH_TOKEN_DEFAULT_EXPIRE⟩
    "bob" bobRec rfl rfl rfl rfl

/-- C1: refresh succeeds only when a user record exists for the token's
subject and that record's stored refresh token exactly equals the presented
token; whenever the subject's user is absent or every matching record stores
a different value (including a structurally valid but superseded token),
refresh fails with 401. -/
theorem refresh_requires_exact_stored_token (request_token : Jwt) (db : DB) :
    (∀ t, (refresh_access_token request_token db).1 = .ok t →
      ∃ (un : String) (u : UserRecord),
        (decode_token request_token).bind Payload.sub = some un ∧
        db.users.find? (fun x => x.username == un) = some u ∧
        u.refresh_token = some request_token) ∧
    (∀ un : String, (decode_token request_token).bind Payload.sub = some un →
      (∀ u : UserRecord, db.users.find? (fun x => x.username == un) = some u →
        u.refresh_token ≠ some request_token) →
      (refresh_access_token request_token db).1 =
        .error ⟨401, "Invalid refresh token"⟩) := by
  constructor
  · intro t h
    cases hdec : decode_token request_token with
    | none => simp [refresh_access_token, hdec] at h
    | some payload =>
      cases hsub : payload.sub with
      | none => simp [refresh_access_token, hdec, hsub] at h
      | some un =>
        cases hfind : db.users.find? (fun x => x.username == un) with
        | none => simp [refresh_access_token, hdec, hsub, hfind] at h
        | some u =>
          by_cases htok : u.refresh_token = some request_token
          · exact ⟨un, u, hsub, hfind, htok⟩
          · simp [refresh_access_token, hdec, hsub, hfind, htok] at h
  · intro un hsub hmiss
    unfold refresh_access_token
    cases hdec : decode_token request_token with
    | none => rfl
    | some payload =>
      rw [hdec] at hsub
      simp only [Option.some_bind] at hsub
      simp only [hsub]
      cases hfind : db.users.find? (fun x => x.username == un) with
      | none => rfl
      | some u => simp [hmiss u hfind]

/-- Witness for C1 at a concrete input: presenting a structurally valid but
superseded token for "bob" (the store holds a different one) fails with
401. -/
theorem refresh_requires_exact_stored_token_witness :
    (refresh_access_token bobStale dbBob).1 =
      .error ⟨401, "Invalid refresh token"⟩ :=
  (refresh_requires_exact_stored_token bobStale dbBob).2 "bob" rfl
    (fun u hu => by
      have : u = bobRec := by
        have h : some bobRec = some u := by
          rw [← hu]; rfl
        injection h with h
        exact h.symm
      subst this
      decide)

/-! ### Shared equation lemmas for login and refresh -/

theorem login_success_eq (user_login : UserLogin) (db : DB) (u : UserRecord)
    (hfind : db.users.find? (fun x => x.username == user_login.username) = some u)
    (hpw : verify_password user_login.password u.password = true) :
    login_for_access_token user_login db =
      (.ok { access_token := create_access_token u.username
               settings.ACCESS_TOKEN_EXPIRE_MINUTES db.clock,
             refresh_token := create_refresh_token u.username db.clock,
             token_type := "bearer", user_id := some u._id },
       { db with
         users := update_first (fun x => x._id == u._id)
           (fun x => { x with
             refresh_token := some (create_refresh_token u.username db.clock) })
           db.users,
         clock := db.clock + 1 }) := by
  unfold login_for_access_token
  simp [hfind, hpw]

theorem refresh_mismatch_eq (request_token : Jwt) (db : DB) (un : String)
    (e : Nat) (u : UserRecord)
    (hrt : request_token = .signed (some un) e)
    (hfind : db.users.find? (fun x => x.username == un) = some u)
    (htok : u.refresh_token ≠ some request_token) :
    refresh_access_token request_token db =
      (.error ⟨401, "Invalid refresh token"⟩, db) := by
  subst hrt
  unfold refresh_access_token
  simp [decode_token, hfind, htok]

theorem refresh_hit_eq (request_token : Jwt) (db : DB) (un : String)
    (e : Nat) (u : UserRecord)
    (hrt : request_token = .signed (some un) e)
    (hfind : db.users.find? (fun x => x.username == un) = some u)
    (htok : u.refresh_token = some request_token) :
    refresh_access_token request_token db =
      (.ok { access_token := create_access_token u.username
               settings.ACCESS_TOKEN_EXPIRE_MINUTES db.clock,
             refresh_token := request_token,
             token_type := "bearer", user_id := none },
       db) := by
  subst hrt
  unfold refresh_access_token
  simp [decode_token, hfind, htok]

/-- C4: a login with a known username and a verifying password mints an
access token bound to that username with the configured expiry and a refresh
token bound to that username, persists that refresh token onto the user
record replacing any prior value, and returns both tokens, the label
"bearer", and the user's identifier. -/
theorem login_success_mints_and_persists (user_login : UserLogin) (db : DB)
    (u : UserRecord)
    (hfind : db.users.find? (fun x => x.username == user_login.username) = some u)
    (hpw : verify_password user_login.password u.password = true)
    (hid : (db.users.map (fun x => x._id)).Nodup) :
    login_for_access_token user_login db =
      (.ok { access_token := create_access_token u.username
               settings.ACCESS_TOKEN_EXPIRE_MINUTES db.clock,
             refresh_token := create_refresh_token u.username db.clock,
             token_type := "bearer", user_id := some u._id },
       { db with
         users := update_first (fun x => x._id == u._id)
           (fun x => { x with
             refresh_token := some (create_refresh_token u.username db.clock) })
           db.users,
         clock := db.clock + 1 }) ∧
    u.username = user_login.username ∧
    (login_for_access_token user_login db).2.users.find?
        (fun x => x.username == user_login.username) =
      some { u with
             refresh_token := some (create_refresh_token u.username db.clock) } := by
  have hmain := login_success_eq user_login db u hfind hpw
  have hbeq := List.find?_some hfind
  refine ⟨hmain, eq_of_beq hbeq, ?_⟩
  rw [hmain]
  exact find?_username_update_first user_login.username u
    (fun x => { x with
      refresh_token := some (create_refresh_token u.username db.clock) })
    rfl db.users hfind hid

/-- Witness for C4 at a concrete input: "alice" logging in with her correct
password on a store holding just her record. -/
theorem login_success_mints_and_persists_witness :
    login_for_access_token ⟨"alice", "p"⟩ dbAlice =
      (.ok { access_token := create_access_token aliceRec.username
               settings.ACCESS_TOKEN_EXPIRE_MINUTES dbAlice.clock,
             refresh_token := create_refresh_token aliceRec.username dbAlice.clock,
             token_type := "bearer", user_id := some aliceRec._id },
       { dbAlice with
         users := update_first (fun x => x._id == aliceRec._id)
           (fun x => { x with
             refresh_token :=
               some (create_refresh_token aliceRec.username dbAlice.clock) })
           dbAlice.users,
         clock := dbAlice.clock + 1 }) ∧
    aliceRec.username = "alice" ∧
    (login_for_access_token ⟨"alice", "p"⟩ dbAlice).2.users.find?
        (fun x => x.username == "alice") =
      some { aliceRec with
             refresh_token :=
               some (create_refresh_token aliceRec.username dbAlice.clock) } :=
  login_success_mints_and_persists ⟨"alice", "p"⟩ dbAlice aliceRec rfl rfl
    (by simp [dbAlice])

/-- C3: after two sequential successful logins with the same credentials, a
refresh presenting the refresh token issued by the first login fails with
401, while a refresh presenting the token issued by the second login
succeeds: each login overwrites the stored refresh token, so at most one
refresh token is valid per user at any time. -/
theorem second_login_invalidates_first_token (user_login : UserLogin) (db : DB)
    (u : UserRecord)
    (hfind : db.users.find? (fun x => x.username == user_login.username) = some u)
    (hpw : verify_password user_login.password u.password = true)
    (hid : (db.users.map (fun x => x._id)).Nodup) :
    ∃ (t1 t2 : Token) (db1 db2 : DB),
      login_for_access_token user_login db = (.ok t1, db1) ∧
      login_for_access_token user_login db1 = (.ok t2, db2) ∧
      (refresh_access_token t1.refresh_token db2).1 =
        .error ⟨401, "Invalid refresh token"⟩ ∧
      ∃ t, (refresh_access_token t2.refresh_token db2).1 = .ok t := by
  have hbeq := List.find?_some hfind
  have hun : u.username = user_login.username := eq_of_beq hbeq
  have h1 := login_success_eq user_login db u hfind hpw
  have hfind1 := find?_username_update_first user_login.username u
    (fun x => { x with
      refresh_token := some (create_refresh_token u.username db.clock) })
    rfl db.users hfind hid
  have hid1 : ((update_first (fun x => x._id == u._id)
      (fun x => { x with
        refresh_token := some (create_refresh_token u.username db.clock) })
      db.users).map (fun x => x._id)).Nodup := by
    rw [map_update_first (fun x => x._id == u._id)
      (fun x => { x with
        refresh_token := some (create_refresh_token u.username db.clock) })
      (fun x => x._id) (fun x => rfl)]
    exact hid
  have h2 := login_success_eq user_login
    { db with
      users := update_first (fun x => x._id == u._id)
        (fun x => { x with
          refresh_token := some (create_refresh_token u.username db.clock) })
        db.users,
      clock := db.clock + 1 }
    { u with refresh_token := some (create_refresh_token u.username db.clock) }
    hfind1 hpw
  have hfind2 := find?_username_update_first user_login.username
    { u with refresh_token := some (create_refresh_token u.username db.clock) }
    (fun x => { x with
      refresh_token := some (create_refresh_token u.username (db.clock + 1)) })
    rfl
    (update_first (fun x => x._id == u._id)
      (fun x => { x with
        refresh_token := some (create_refresh_token u.username db.clock) })
      db.users)
    hfind1 hid1
  have hpredeq : (fun x : UserRecord => x.username == u.username) =
      (fun x : UserRecord => x.username == user_login.username) := by
    funext x
    rw [hun]
  have hfind2' : (update_first (fun x => x._id == u._id)
      (fun x => { x with
        refresh_token := some (create_refresh_token u.username (db.clock + 1)) })
      (update_first (fun x => x._id == u._id)
        (fun x => { x with
          refresh_token := some (create_refresh_token u.username db.clock) })
        db.users)).find? (fun x => x.username == u.username) =
      some { u with
        refresh_token := some (create_refresh_token u.username (db.clock + 1)) } := by
    rw [hpredeq]
    exact hfind2
  have hneJwt : Jwt.signed (some u.username)
      (db.clock + 1 + REFRESH_TOKEN_DEFAULT_EXPIRE) ≠
      Jwt.signed (some u.username) (db.clock + REFRESH_TOKEN_DEFAULT_EXPIRE) := by
    intro hcontra
    injection hcontra with hs he
    omega
  refine ⟨_, _, _, _, h1, h2, ?_, ?_⟩
  · exact congrArg Prod.fst
      (refresh_mismatch_eq _ _ u.username
        (db.clock + REFRESH_TOKEN_DEFAULT_EXPIRE)
        { u with
          refresh_token := some (create_refresh_token u.username (db.clock + 1)) }
        rfl hfind2' (fun hcontra => hneJwt (Option.some.inj hcontra)))
  · exact ⟨_, congrArg Prod.fst
      (refresh_hit_eq _ _ u.username
        (db.clock + 1 + REFRESH_TOKEN_DEFAULT_EXPIRE)
        { u with
          refresh_token := some (create_refresh_token u.username (db.clock + 1)) }
        rfl hfind2' rfl)⟩

/-- Witness for C3 at a concrete input: "alice" logs in twice on a store
holding just her record; her first refresh token is then rejected and her
second accepted. -/
theorem second_login_invalidates_first_token_witness :
    ∃ (t1 t2 : Token) (db1 db2 : DB),
      login_for_access_token ⟨"alice", "p"⟩ dbAlice = (.ok t1, db1) ∧
      login_for_access_token ⟨"alice", "p"⟩ db1 = (.ok t2, db2) ∧
      (refresh_access_token t1.refresh_token db2).1 =
        .error ⟨401, "Invalid refresh token"⟩ ∧
      ∃ t, (refresh_access_token t2.refresh_token db2).1 = .ok t :=
  second_login_invalidates_first_token ⟨"alice", "p"⟩ dbAlice aliceRec rfl rfl
    (by simp [dbAlice])
